import Mathlib

/-!
Verification of the inventory-management backend (Django/DRF application):
a shallow embedding in Lean 4 of the identity store, the credential
service (register / login / logout / profile / change-password), the
admin-only user directory, and the order / product domain rules, as
implemented in `inventory/views.py`, `inventory/models.py` and
`inventory/serializers.py`.

Conventions of the embedding:
 * Request fields read with `request.data.get(...)` are `Option String`
   (or `Option FieldVal` for JSON values that may be numbers or strings);
   Python falsiness of `None` and `""` is `isBlank`.
 * Password hashing is modelled by an injective tagging function
   `hashPassword`; Django's `check_password` is equality of hashes.
 * The persistent store (users, DRF auth tokens, products, orders) is a
   `ServerState` record threaded through every handler.
 * HTTP responses are an `ApiResponse` record: status code plus the
   optional `error` / `message` / `token` / `username` / `role` fields
   the handlers actually emit.
-/

namespace Inventory

/-- Python falsiness of an optional request field: absent (`None`) or `""`. -/
def isBlank : Option String → Bool
  | none => true
  | some s => s = ""

/-- Python's `str.strip()`: drop leading and trailing whitespace. -/
def pyStrip (s : String) : String :=
  ⟨(((s.data.dropWhile Char.isWhitespace).reverse.dropWhile Char.isWhitespace).reverse)⟩

/-- Model of Django's salted one-way password hashing (injective tag). -/
def hashPassword (p : String) : String := "pbkdf2_sha256$" ++ p

/-- A row of Django's `auth_user` table, as used by this application. -/
structure Identity where
  username : String
  passwordHash : String
  email : String
  first_name : String
  last_name : String
  is_staff : Bool
  is_superuser : Bool
  date_joined : Nat
deriving DecidableEq, Repr

/-- A DRF `authtoken` row: opaque key bound to one user. -/
structure AuthToken where
  key : String
  user : String
deriving DecidableEq, Repr

/-- `inventory.models.Product`. -/
structure Product where
  id : Nat
  name : String
  sku : String
  stock : Int
  reorder_level : Int
  supplier : Option Nat
deriving DecidableEq, Repr

/-- `inventory.models.Order`. -/
structure Order where
  order_number : String
  product_id : Nat
  quantity : Int
  status : String
  created_at : Nat
deriving DecidableEq, Repr

/-- The persistent store plus the fresh-token counter and a logical clock
for `date_joined` / `created_at`. -/
structure ServerState where
  users : List Identity
  tokens : List AuthToken
  products : List Product
  orders : List Order
  nextTokenId : Nat
  now : Nat
deriving DecidableEq, Repr

/-- Responses emitted by the handlers in `views.py`. -/
structure ApiResponse where
  statusCode : Nat
  error : Option String
  message : Option String
  token : Option String
  username : Option String
  role : Option String
deriving DecidableEq, Repr

/-- An error response: a status code and an `{"error": msg}` body. -/
def errResponse (code : Nat) (msg : String) : ApiResponse :=
  ⟨code, some msg, none, none, none, none⟩

/-- `views._get_role_from_user`. -/
def getRoleFromUser (u : Identity) : String :=
  if u.is_superuser then "Admin"
  else if u.is_staff then "Staff"
  else "User"

/-- `serializers.UserSerializer.get_role`. -/
def userSerializerRole (u : Identity) : String :=
  if u.is_superuser then "Admin"
  else if u.is_staff then "Staff"
  else "User"

/-- The `whoami` view body: username, email and role via
`_get_role_from_user`. -/
def whoamiBody (u : Identity) : String × String × String :=
  (u.username, u.email, getRoleFromUser u)

/-- The `UserSerializer` output a profile `GET` and the user directory
serialize: username, email, both flags, join date and the derived role. -/
def userSerializerData (u : Identity) : String × String × Bool × Bool × Nat × String :=
  (u.username, u.email, u.is_staff, u.is_superuser, u.date_joined, userSerializerRole u)

/-- `User.objects.filter(username=...).first()` — lookup by username. -/
def findUser (s : ServerState) (name : String) : Option Identity :=
  s.users.find? (fun u => u.username = name)

/-- `User.objects.filter(username=username).exists()`. -/
def usernameExists (s : ServerState) (name : String) : Bool :=
  s.users.any (fun u => u.username = name)

/-- The token row bound to a user, if any. -/
def findTokenFor (s : ServerState) (name : String) : Option AuthToken :=
  s.tokens.find? (fun t => t.user = name)

/-- `Token.objects.get_or_create(user=user)`: reuse the existing token or
mint a fresh opaque key. -/
def getOrCreateToken (s : ServerState) (name : String) : String × ServerState :=
  match findTokenFor s name with
  | some t => (t.key, s)
  | none =>
      let k := "token-" ++ toString s.nextTokenId
      (k, { s with tokens := s.tokens ++ [⟨k, name⟩], nextTokenId := s.nextTokenId + 1 })

/-- The body of a `POST /auth/register/` request; each field is what
`request.data.get` can see (`none` for absent or JSON null). -/
structure RegisterRequest where
  username : Option String
  email : Option String
  password : Option String
  role : Option String
  admin_key : Option String
deriving DecidableEq, Repr

/-- `ADMIN_SIGNUP_KEY = (os.environ.get("ADMIN_SIGNUP_KEY") or "").strip()`. -/
def adminSignupKeyOf (env : Option String) : String := pyStrip (env.getD "")

/-- Role normalization in `RegisterView.post`: default `"User"`, falsy
values become `"User"`, anything outside the three labels becomes
`"User"`. -/
def effectiveRole (req : RegisterRequest) : String :=
  let r := (req.role.getD "User")
  let r := if r = "" then "User" else r
  if r = "Admin" ∨ r = "Staff" ∨ r = "User" then r else "User"

/-- `admin_key = (request.data.get("admin_key") or "").strip()`. -/
def trimmedAdminKey (req : RegisterRequest) : String := pyStrip (req.admin_key.getD "")

/-- The tail of `RegisterView.post` after all checks passed: create the
user, apply the role flags, get-or-create the token, answer 201. -/
def finishRegister (s : ServerState) (req : RegisterRequest) (role : String) :
    ApiResponse × ServerState :=
  let user : Identity :=
    { username := req.username.getD ""
      passwordHash := hashPassword (req.password.getD "")
      email := req.email.getD ""
      first_name := ""
      last_name := ""
      is_staff := role = "Admin" || role = "Staff"
      is_superuser := role = "Admin"
      date_joined := s.now }
  let s1 : ServerState := { s with users := s.users ++ [user], now := s.now + 1 }
  let ts := getOrCreateToken s1 user.username
  (⟨201, none, some "User registered successfully.", some ts.1, some user.username,
     some (getRoleFromUser user)⟩, ts.2)

/-- `RegisterView.post` (views.py lines 53–127), with the configured
`ADMIN_SIGNUP_KEY` (already stripped) passed in as `key`. -/
def register (key : String) (s : ServerState) (req : RegisterRequest) :
    ApiResponse × ServerState :=
  if isBlank req.username || isBlank req.password then
    (errResponse 400 "Username and password are required.", s)
  else if usernameExists s (req.username.getD "") then
    (errResponse 400 "Username already exists.", s)
  else
    if effectiveRole req = "Admin" then
      if key = "" then
        (errResponse 500
          "Server is not configured with ADMIN_SIGNUP_KEY. Admin registration is disabled.", s)
      else if trimmedAdminKey req = "" then
        (errResponse 400 "Admin key is required to create an admin account.", s)
      else if trimmedAdminKey req ≠ key then
        (errResponse 403 "Invalid admin key. Account was not created.", s)
      else finishRegister s req (effectiveRole req)
    else finishRegister s req (effectiveRole req)

/-- `django.contrib.auth.authenticate`: look the user up by username and
compare password hashes; `none` for unknown user or wrong password. -/
def authenticate (s : ServerState) (username password : String) : Option Identity :=
  match findUser s username with
  | none => none
  | some u => if u.passwordHash = hashPassword password then some u else none

/-- `LoginView.post` (views.py lines 137–165). -/
def login (s : ServerState) (username password : Option String) :
    ApiResponse × ServerState :=
  if isBlank username || isBlank password then
    (errResponse 400 "Username and password are required.", s)
  else
    match authenticate s (username.getD "") (password.getD "") with
    | none => (errResponse 401 "Invalid username or password.", s)
    | some u =>
        let ts := getOrCreateToken s u.username
        (⟨200, none, some "Login successful.", some ts.1, some u.username,
           some (getRoleFromUser u)⟩, ts.2)

/-- `LogoutView.post`: delete the caller's token (no-op when absent). -/
def logout (s : ServerState) (caller : String) : ApiResponse × ServerState :=
  (⟨200, none, some "Logged out successfully.", none, none, none⟩,
   { s with tokens := s.tokens.filter (fun t => t.user ≠ caller) })

/-- `user.save()` after mutating the authenticated user's row. -/
def updateUser (s : ServerState) (name : String) (f : Identity → Identity) : ServerState :=
  { s with users := s.users.map (fun u => if u.username = name then f u else u) }

/-- The body of a `PUT /auth/profile/` request. -/
structure ProfileRequest where
  email : Option String
  first_name : Option String
  last_name : Option String
deriving DecidableEq, Repr

/-- `ProfileView.put` (views.py lines 193–199): each field defaults to its
current value when the request omits it. -/
def profilePut (s : ServerState) (caller : String) (req : ProfileRequest) :
    ApiResponse × ServerState :=
  (⟨200, none, some "Profile updated.", none, none, none⟩,
   updateUser s caller (fun u =>
     { u with
       email := req.email.getD u.email
       first_name := req.first_name.getD u.first_name
       last_name := req.last_name.getD u.last_name }))

/-- `ChangePasswordView.post` (views.py lines 205–224). -/
def changePassword (s : ServerState) (caller : String)
    (old_password new_password : Option String) : ApiResponse × ServerState :=
  if isBlank old_password || isBlank new_password then
    (errResponse 400 "Old password and new password are required.", s)
  else
    match findUser s caller with
    | none => (errResponse 400 "Old password is incorrect.", s)
    | some u =>
        if u.passwordHash = hashPassword (old_password.getD "") then
          (⟨200, none, some "Password changed successfully.", none, none, none⟩,
           updateUser s caller
             (fun v => { v with passwordHash := hashPassword (new_password.getD "") }))
        else
          (errResponse 400 "Old password is incorrect.", s)

/-- Token-based request authentication: resolve a bearer key to its
owner's username. -/
def tokenAuth (s : ServerState) (key : String) : Option String :=
  (s.tokens.find? (fun t => t.key = key)).map (fun t => t.user)

/-- The ordering `-date_joined` used by `UsersListView.get`. -/
def byDateJoinedDesc (a b : Identity) : Prop := b.date_joined ≤ a.date_joined

instance : DecidableRel byDateJoinedDesc :=
  fun a b => Nat.decLe b.date_joined a.date_joined

instance : IsTotal Identity byDateJoinedDesc :=
  ⟨fun a b => Nat.le_total b.date_joined a.date_joined⟩

instance : IsTrans Identity byDateJoinedDesc :=
  ⟨fun _ _ _ hab hbc => Nat.le_trans hbc hab⟩

/-- `UsersListView` (views.py lines 231–237): DRF's `IsAdminUser`
permission (`request.user.is_staff`) gates the handler; on success the
user list is returned ordered by `-date_joined`. -/
def usersList (s : ServerState) (caller : Identity) :
    ApiResponse × Option (List Identity) :=
  if caller.is_staff then
    (⟨200, none, none, none, none, none⟩,
     some (List.insertionSort byDateJoinedDesc s.users))
  else
    (errResponse 403 "You do not have permission to perform this action.", none)

/-- A JSON scalar arriving in a request body where an integer is
expected: either already a number or a string to be parsed. -/
inductive FieldVal where
  | vint : Int → FieldVal
  | vstr : String → FieldVal
deriving DecidableEq, Repr

/-- Decimal-digit accumulator behind `parseIntString`. -/
def parseDigitsAux : List Char → Nat → Option Nat
  | [], acc => some acc
  | c :: cs, acc =>
      if c.isDigit then parseDigitsAux cs (acc * 10 + (c.toNat - '0'.toNat))
      else none

/-- Python's `int(str)` on a decimal literal with an optional leading
minus sign: `none` when the string is not an integer literal. -/
def parseIntString (s : String) : Option Int :=
  match s.data with
  | [] => none
  | '-' :: cs =>
      if cs.isEmpty then none
      else (parseDigitsAux cs 0).map (fun n => -(n : Int))
  | cs => (parseDigitsAux cs 0).map (fun n => (n : Int))

/-- DRF `IntegerField.to_internal_value`: numbers pass through, strings
are parsed as integers, anything else is invalid. -/
def parseIntField : FieldVal → Option Int
  | .vint n => some n
  | .vstr s => parseIntString s

/-- The body of a `POST /orders/` request as `OrderSerializer` sees it. -/
structure OrderRequest where
  order_number : Option String
  product_id : Option Nat
  quantity : Option FieldVal
  status : Option String
deriving DecidableEq, Repr

/-- `Order.STATUS_CHOICES`. -/
def orderStatusChoices : List String := ["pending", "completed", "cancelled"]

/-- `Product.objects.filter(pk=...).exists()` — the check behind
`PrimaryKeyRelatedField(queryset=Product.objects.all())`. -/
def productExists (s : ServerState) (pid : Nat) : Bool :=
  s.products.any (fun p => p.id = pid)

/-- Uniqueness check behind `order_number`'s `unique=True`. -/
def orderNumberExists (s : ServerState) (num : String) : Bool :=
  s.orders.any (fun o => o.order_number = num)

/-- Order creation through `OrderSerializer` backed by the `Order` model:
`order_number` required and unique, `product_id` required and must
reference an existing product, `quantity` a `PositiveIntegerField`
(DRF maps it to an integer field with `min_value=0`), `status` a choice
field defaulting to `"pending"`. -/
def createOrder (s : ServerState) (req : OrderRequest) :
    Except String (Order × ServerState) :=
  match req.order_number with
  | none => .error "order_number: This field is required."
  | some num =>
    if orderNumberExists s num then
      .error "order_number: order with this order number already exists."
    else match req.product_id with
    | none => .error "product_id: This field is required."
    | some pid =>
      if productExists s pid = false then
        .error "product_id: Invalid pk - object does not exist."
      else match req.quantity with
      | none => .error "quantity: This field is required."
      | some qv =>
        match parseIntField qv with
        | none => .error "quantity: A valid integer is required."
        | some q =>
          if q < 0 then
            .error "quantity: Ensure this value is greater than or equal to 0."
          else
            let st := req.status.getD "pending"
            if (orderStatusChoices.contains st) = false then
              .error "status: not a valid choice."
            else
              let o : Order :=
                { order_number := num, product_id := pid, quantity := q,
                  status := st, created_at := s.now }
              .ok (o, { s with orders := s.orders ++ [o], now := s.now + 1 })

/-- Modelled from the spec: the revision under `src/` ships
`ProductViewSet` as a plain CRUD `ModelViewSet` with no adjust-stock
action, so the `AdjustStock(productId, amount)` operation of the spec is
absent from the source. Per the spec's words: the amount must parse as an
integer (else `ValidationError`), and the new stock is
`max(0, currentStock + amount)` — clamped at zero, then persisted and
returned. -/
def adjustStock (p : Product) (amount : FieldVal) : Except String Product :=
  match parseIntField amount with
  | none => .error "Invalid amount."
  | some a => .ok { p with stock := max 0 (p.stock + a) }

/-! ## Concrete fixtures used by the witnesses -/

/-- A superuser account (registered through the admin-key path). -/
def demoAdmin : Identity :=
  ⟨"alice", hashPassword "apw", "alice@example.com", "", "", true, true, 0⟩

/-- A staff, non-superuser account. -/
def demoStaff : Identity :=
  ⟨"bob", hashPassword "bpw", "bob@example.com", "", "", true, false, 1⟩

/-- A plain user account. -/
def demoUser : Identity :=
  ⟨"carol", hashPassword "cpw", "carol@example.com", "Carol", "Reed", false, false, 2⟩

/-- A product on stock. -/
def demoProduct : Product := ⟨1, "Widget", "SKU-1", 3, 2, none⟩

/-- A small store: three accounts, one token, one product, no orders. -/
def demoState : ServerState :=
  ⟨[demoAdmin, demoStaff, demoUser], [⟨"token-0", "alice"⟩], [demoProduct], [], 1, 3⟩

/-! ## Helper lemmas -/

/-- `get_or_create` on the token table never changes the user table. -/
theorem getOrCreateToken_users (s : ServerState) (n : String) :
    ((getOrCreateToken s n).2).users = s.users := by
  unfold getOrCreateToken
  cases findTokenFor s n <;> rfl

/-- `get_or_create` on the token table never changes the order table. -/
theorem getOrCreateToken_orders (s : ServerState) (n : String) :
    ((getOrCreateToken s n).2).orders = s.orders := by
  unfold getOrCreateToken
  cases findTokenFor s n <;> rfl

/-- Shape of the 201 branch of `RegisterView.post`: the new user row is
appended, the response carries a token. -/
theorem finishRegister_shape (s : ServerState) (req : RegisterRequest) (role : String) :
    (finishRegister s req role).1.statusCode = 201 ∧
    ((finishRegister s req role).1.token).isSome = true ∧
    ((finishRegister s req role).2).users = s.users ++
      [⟨req.username.getD "", hashPassword (req.password.getD ""), req.email.getD "", "", "",
        decide (role = "Admin") || decide (role = "Staff"), decide (role = "Admin"), s.now⟩] := by
  unfold finishRegister
  refine ⟨rfl, rfl, ?_⟩
  rw [getOrCreateToken_users]

/-- A 201 from `RegisterView.post` means all checks passed and the final
creation block ran. -/
theorem register_201_eq_finish (key : String) (s : ServerState) (req : RegisterRequest)
    (h : (register key s req).1.statusCode = 201) :
    isBlank req.username = false ∧ isBlank req.password = false ∧
    usernameExists s (req.username.getD "") = false ∧
    register key s req = finishRegister s req (effectiveRole req) := by
  unfold register at h
  split at h
  next => exact absurd h (by simp [errResponse])
  next hc1 =>
    split at h
    next => exact absurd h (by simp [errResponse])
    next hc2 =>
      simp only [Bool.or_eq_true, not_or, Bool.not_eq_true] at hc1
      have hc2' : usernameExists s (req.username.getD "") = false := by
        cases hx : usernameExists s (req.username.getD "") <;> simp [hx] at hc2 ⊢
      refine ⟨hc1.1, hc1.2, hc2', ?_⟩
      unfold register
      simp only [hc1.1, hc1.2, Bool.or_self, Bool.false_eq_true, if_false, hc2']
      split at h
      next hadm =>
        split at h
        next => exact absurd h (by simp [errResponse])
        next hk =>
          split at h
          next => exact absurd h (by simp [errResponse])
          next ht =>
            split at h
            next => exact absurd h (by simp [errResponse])
            next hne =>
              rw [if_pos hadm, if_neg hk, if_neg ht, if_neg hne]
      next hadm => rw [if_neg hadm]

/-- The `(username, is_staff, is_superuser)` projection of the user
table, for frame statements about the role flags. -/
def flagsMap (s : ServerState) : List (String × Bool × Bool) :=
  s.users.map (fun u => (u.username, u.is_staff, u.is_superuser))

/-! ## Claim theorems -/

/-- C5: for every pair of flags, the derived role is `"Admin"` iff
`is_superuser`, else `"Staff"` iff `is_staff`, else `"User"`; the
derivation in `views._get_role_from_user` and the one in
`serializers.UserSerializer.get_role` agree on all four inputs, and the
who-am-I body and the user-serializer output both carry exactly this
derived label. -/
theorem role_resolution_consistent :
    ∀ u : Identity,
      getRoleFromUser u = userSerializerRole u ∧
      (getRoleFromUser u = "Admin" ↔ u.is_superuser = true) ∧
      (getRoleFromUser u = "Staff" ↔ (u.is_superuser = false ∧ u.is_staff = true)) ∧
      (getRoleFromUser u = "User" ↔ (u.is_superuser = false ∧ u.is_staff = false)) ∧
      (whoamiBody u).2.2 = getRoleFromUser u ∧
      (userSerializerData u).2.2.2.2.2 = getRoleFromUser u := by
  intro u
  cases hsu : u.is_superuser <;> cases hst : u.is_staff <;>
    simp [getRoleFromUser, userSerializerRole, whoamiBody, userSerializerData, hsu, hst]

/-- C1: for a well-formed Register request asking for role `"Admin"`
(username and password supplied, username free): when the configured
`ADMIN_SIGNUP_KEY` is non-empty and the trimmed `admin_key` equals it,
the user is created with `is_staff = true` and `is_superuser = true` and
a 201 response with a token is returned; when the key is unset the
request fails with 500, when the supplied key is blank with 400, when it
mismatches with 403 — and in each failure the state is unchanged (no
identity, no token created). -/
theorem register_admin_key_gate (env : Option String) (s : ServerState)
    (req : RegisterRequest)
    (hrole : effectiveRole req = "Admin")
    (hu : isBlank req.username = false)
    (hp : isBlank req.password = false)
    (hfree : usernameExists s (req.username.getD "") = false) :
    (adminSignupKeyOf env ≠ "" → trimmedAdminKey req = adminSignupKeyOf env →
      (register (adminSignupKeyOf env) s req).1.statusCode = 201 ∧
      ((register (adminSignupKeyOf env) s req).1.token).isSome = true ∧
      ∃ u : Identity,
        ((register (adminSignupKeyOf env) s req).2).users = s.users ++ [u] ∧
        u.is_staff = true ∧ u.is_superuser = true ∧
        u.username = req.username.getD "") ∧
    (adminSignupKeyOf env = "" →
      register (adminSignupKeyOf env) s req =
        (errResponse 500
          "Server is not configured with ADMIN_SIGNUP_KEY. Admin registration is disabled.",
         s)) ∧
    (adminSignupKeyOf env ≠ "" → trimmedAdminKey req = "" →
      register (adminSignupKeyOf env) s req =
        (errResponse 400 "Admin key is required to create an admin account.", s)) ∧
    (adminSignupKeyOf env ≠ "" → trimmedAdminKey req ≠ "" →
      trimmedAdminKey req ≠ adminSignupKeyOf env →
      register (adminSignupKeyOf env) s req =
        (errResponse 403 "Invalid admin key. Account was not created.", s)) := by
  have hreg :
      register (adminSignupKeyOf env) s req =
        (if adminSignupKeyOf env = "" then
          (errResponse 500
            "Server is not configured with ADMIN_SIGNUP_KEY. Admin registration is disabled.",
           s)
         else if trimmedAdminKey req = "" then
          (errResponse 400 "Admin key is required to create an admin account.", s)
         else if trimmedAdminKey req ≠ adminSignupKeyOf env then
          (errResponse 403 "Invalid admin key. Account was not created.", s)
         else finishRegister s req (effectiveRole req)) := by
    unfold register
    rw [hu, hp, hfree, hrole]
    simp
  refine ⟨?_, ?_, ?_, ?_⟩
  · intro hk hmatch
    have hne : ¬ trimmedAdminKey req = "" := by
      intro h0; exact hk (h0 ▸ hmatch).symm
    rw [hreg]
    rw [if_neg hk, if_neg hne, if_neg (by simp [hmatch])]
    obtain ⟨h1, h2, h3⟩ := finishRegister_shape s req (effectiveRole req)
    refine ⟨h1, h2, ?_⟩
    refine ⟨_, h3, ?_, ?_, rfl⟩
    · simp [hrole]
    · simp [hrole]
  · intro hk
    rw [hreg, if_pos hk]
  · intro hk h0
    rw [hreg, if_neg hk, if_pos h0]
  · intro hk h0 hne
    rw [hreg, if_neg hk, if_neg h0, if_pos hne]

/-- Witness for C1: in the demo store, registering `"dora"` with role
`"Admin"` and the correct trimmed key succeeds with both flags set, and
each of the three failure branches leaves the demo store untouched. -/
theorem register_admin_key_gate_witness :
    ((register (adminSignupKeyOf (some " s3cret ")) demoState
        ⟨some "dora", none, some "dpw", some "Admin", some "s3cret"⟩).1.statusCode = 201 ∧
      ((register (adminSignupKeyOf (some " s3cret ")) demoState
        ⟨some "dora", none, some "dpw", some "Admin", some "s3cret"⟩).1.token).isSome = true ∧
      ∃ u : Identity,
        ((register (adminSignupKeyOf (some " s3cret ")) demoState
          ⟨some "dora", none, some "dpw", some "Admin", some "s3cret"⟩).2).users =
            demoState.users ++ [u] ∧
        u.is_staff = true ∧ u.is_superuser = true ∧ u.username = "dora") ∧
    (register (adminSignupKeyOf none) demoState
        ⟨some "dora", none, some "dpw", some "Admin", some "s3cret"⟩ =
      (errResponse 500
        "Server is not configured with ADMIN_SIGNUP_KEY. Admin registration is disabled.",
       demoState)) ∧
    (register (adminSignupKeyOf (some " s3cret ")) demoState
        ⟨some "dora", none, some "dpw", some "Admin", some "   "⟩ =
      (errResponse 400 "Admin key is required to create an admin account.", demoState)) ∧
    (register (adminSignupKeyOf (some " s3cret ")) demoState
        ⟨some "dora", none, some "dpw", some "Admin", some "wrong"⟩ =
      (errResponse 403 "Invalid admin key. Account was not created.", demoState)) := by
  refine ⟨?_, ?_, ?_, ?_⟩
  · exact (register_admin_key_gate (some " s3cret ") demoState
      ⟨some "dora", none, some "dpw", some "Admin", some "s3cret"⟩
      (by decide) (by decide) (by decide) (by decide)).1 (by decide) (by decide)
  · exact (register_admin_key_gate none demoState
      ⟨some "dora", none, some "dpw", some "Admin", some "s3cret"⟩
      (by decide) (by decide) (by decide) (by decide)).2.1 (by decide)
  · exact (register_admin_key_gate (some " s3cret ") demoState
      ⟨some "dora", none, some "dpw", some "Admin", some "   "⟩
      (by decide) (by decide) (by decide) (by decide)).2.2.1 (by decide) (by decide)
  · exact (register_admin_key_gate (some " s3cret ") demoState
      ⟨some "dora", none, some "dpw", some "Admin", some "wrong"⟩
      (by decide) (by decide) (by decide) (by decide)).2.2.2 (by decide) (by decide) (by decide)

/-- C2 (counterexample): a successful registration that does not go
through the admin-signup-key path can still set `is_staff`: registering
`"dave"` with `role = "Staff"` (no admin key, key unset) succeeds with
201 and creates a user with `is_staff = true`. -/
theorem register_staff_role_sets_staff_flag :
    effectiveRole ⟨some "dave", none, some "dpw", some "Staff", none⟩ ≠ "Admin" ∧
    (register "" demoState ⟨some "dave", none, some "dpw", some "Staff", none⟩).1.statusCode
      = 201 ∧
    ∃ u : Identity,
      ((register "" demoState ⟨some "dave", none, some "dpw", some "Staff", none⟩).2).users =
        demoState.users ++ [u] ∧ u.is_staff = true := by
  refine ⟨by decide, by decide,
    ⟨"dave", hashPassword "dpw", "", "", "", true, false, 3⟩, by decide, by decide⟩

/-- C2 (amended): a successful registration outside the admin path never
sets `is_superuser`, and sets `is_staff` exactly when the normalized
requested role is `"Staff"`; apart from registration, no operation of the
service (profile edit, password change, login, logout) ever changes any
user's `is_staff` or `is_superuser` flag. -/
theorem register_flag_policy :
    (∀ (key : String) (s : ServerState) (req : RegisterRequest),
      effectiveRole req ≠ "Admin" →
      (register key s req).1.statusCode = 201 →
      ∃ u : Identity, ((register key s req).2).users = s.users ++ [u] ∧
        u.is_superuser = false ∧
        (effectiveRole req = "Staff" → u.is_staff = true) ∧
        (effectiveRole req = "User" → u.is_staff = false)) ∧
    (∀ (s : ServerState) (c : String) (req : ProfileRequest),
      flagsMap ((profilePut s c req).2) = flagsMap s) ∧
    (∀ (s : ServerState) (c : String) (o n : Option String),
      flagsMap ((changePassword s c o n).2) = flagsMap s) ∧
    (∀ (s : ServerState) (u p : Option String), ((login s u p).2).users = s.users) ∧
    (∀ (s : ServerState) (c : String), ((logout s c).2).users = s.users) := by
  refine ⟨?_, ?_, ?_, ?_, ?_⟩
  · intro key s req hna h
    obtain ⟨_, _, _, heq⟩ := register_201_eq_finish key s req h
    obtain ⟨_, _, h3⟩ := finishRegister_shape s req (effectiveRole req)
    rw [heq]
    refine ⟨_, h3, by simp [hna], ?_, ?_⟩
    · intro hs; simp [hs]
    · intro hu; simp [hu]
  · intro s c req
    simp only [profilePut, updateUser, flagsMap, List.map_map]
    congr 1
    funext u
    by_cases h : u.username = c <;> simp [h]
  · intro s c o n
    unfold changePassword
    split
    next => rfl
    next =>
      cases hf : findUser s c with
      | none => simp [hf]
      | some u =>
        simp only [hf]
        split
        next =>
          simp only [flagsMap, updateUser, List.map_map]
          congr 1
          funext v
          by_cases h : v.username = c <;> simp [h]
        next => rfl
  · intro s u p
    unfold login
    split
    next => rfl
    next =>
      cases ha : authenticate s (u.getD "") (p.getD "") with
      | none => simp [ha]
      | some id => simp [ha, getOrCreateToken_users]
  · intro s c
    rfl

/-- Witness for the amended C2: registering `"erin"` with no role field
creates a user with both flags false, and a profile edit leaves the flag
projection of the demo store unchanged. -/
theorem register_flag_policy_witness :
    (∃ u : Identity,
      ((register "" demoState ⟨some "erin", none, some "epw", none, none⟩).2).users =
        demoState.users ++ [u] ∧
      u.is_superuser = false ∧
      (effectiveRole ⟨some "erin", none, some "epw", none, none⟩ = "Staff" →
        u.is_staff = true) ∧
      (effectiveRole ⟨some "erin", none, some "epw", none, none⟩ = "User" →
        u.is_staff = false)) ∧
    flagsMap ((profilePut demoState "carol" ⟨some "carol2@example.com", none, none⟩).2) =
      flagsMap demoState :=
  ⟨register_flag_policy.1 "" demoState ⟨some "erin", none, some "epw", none, none⟩
      (by decide) (by decide),
   register_flag_policy.2.1 demoState "carol" ⟨some "carol2@example.com", none, none⟩⟩

/-- C8: once a Register call for username `u` has succeeded, any later
Register call for the same `u` (with a supplied password, whatever its
other fields) fails with the duplicate-username conflict error and leaves
the state unchanged. -/
theorem register_duplicate_username (key1 key2 : String) (s : ServerState)
    (req1 req2 : RegisterRequest)
    (h1 : (register key1 s req1).1.statusCode = 201)
    (hsame : req2.username = req1.username)
    (hp2 : isBlank req2.password = false) :
    register key2 ((register key1 s req1).2) req2 =
      (errResponse 400 "Username already exists.", (register key1 s req1).2) := by
  obtain ⟨hu1, _, _, heq⟩ := register_201_eq_finish key1 s req1 h1
  have hshape := (finishRegister_shape s req1 (effectiveRole req1)).2.2
  rw [← heq] at hshape
  have hu2 : isBlank req2.username = false := by rw [hsame]; exact hu1
  have hex2 : usernameExists ((register key1 s req1).2) (req2.username.getD "") = true := by
    unfold usernameExists
    rw [hshape, List.any_append]
    simp [hsame]
  set s2 := (register key1 s req1).2 with hs2
  unfold register
  simp [hu2, hp2, hex2]

/-- Witness for C8: after registering `"frank"`, a second registration of
`"frank"` — now with an email, a different password, role `"Admin"` and
some admin key — fails with the conflict error and changes nothing. -/
theorem register_duplicate_username_witness :
    (register "" demoState ⟨some "frank", none, some "fpw", none, none⟩).1.statusCode = 201 ∧
    register "k" ((register "" demoState ⟨some "frank", none, some "fpw", none, none⟩).2)
        ⟨some "frank", some "f@example.com", some "other", some "Admin", some "whatever"⟩ =
      (errResponse 400 "Username already exists.",
       (register "" demoState ⟨some "frank", none, some "fpw", none, none⟩).2) :=
  ⟨by decide,
   register_duplicate_username "" "k" demoState
     ⟨some "frank", none, some "fpw", none, none⟩
     ⟨some "frank", some "f@example.com", some "other", some "Admin", some "whatever"⟩
     (by decide) (by decide) (by decide)⟩

/-- C6: login with a registered username and its password succeeds with a
token; login with a registered username and a wrong password and login
with an unknown username produce the exact same 401 response (same
status, same error message, state untouched) — the two failures are
indistinguishable to the caller. -/
theorem login_behavior (s : ServerState) :
    (∀ (u p : String) (id : Identity), u ≠ "" → p ≠ "" →
      findUser s u = some id → id.passwordHash = hashPassword p →
      (login s (some u) (some p)).1.statusCode = 200 ∧
      ((login s (some u) (some p)).1.token).isSome = true) ∧
    (∀ (u w : String) (id : Identity), u ≠ "" → w ≠ "" →
      findUser s u = some id → id.passwordHash ≠ hashPassword w →
      login s (some u) (some w) = (errResponse 401 "Invalid username or password.", s)) ∧
    (∀ (v q : String), v ≠ "" → q ≠ "" → findUser s v = none →
      login s (some v) (some q) = (errResponse 401 "Invalid username or password.", s)) ∧
    (∀ (u w v q : String) (id : Identity), u ≠ "" → w ≠ "" → v ≠ "" → q ≠ "" →
      findUser s u = some id → id.passwordHash ≠ hashPassword w →
      findUser s v = none →
      login s (some u) (some w) = login s (some v) (some q)) := by
  refine ⟨?_, ?_, ?_, ?_⟩
  · intro u p id hu hp hf hh
    unfold login
    simp [isBlank, hu, hp, authenticate, hf, hh]
  · intro u w id hu hw hf hh
    unfold login
    simp [isBlank, hu, hw, authenticate, hf, hh]
  · intro v q hv hq hf
    unfold login
    simp [isBlank, hv, hq, authenticate, hf]
  · intro u w v q id hu hw hv hq hf hh hg
    have A : login s (some u) (some w) =
        (errResponse 401 "Invalid username or password.", s) := by
      unfold login
      simp [isBlank, hu, hw, authenticate, hf, hh]
    have B : login s (some v) (some q) =
        (errResponse 401 "Invalid username or password.", s) := by
      unfold login
      simp [isBlank, hv, hq, authenticate, hg]
    rw [A, B]

/-- Witness for C6 over the demo store: `carol`'s correct password logs
in with a token; `carol` with a wrong password and unknown `mallory`
produce identical 401 responses. -/
theorem login_behavior_witness :
    ((login demoState (some "carol") (some "cpw")).1.statusCode = 200 ∧
      ((login demoState (some "carol") (some "cpw")).1.token).isSome = true) ∧
    (login demoState (some "carol") (some "wrong") =
      (errResponse 401 "Invalid username or password.", demoState)) ∧
    (login demoState (some "mallory") (some "cpw") =
      (errResponse 401 "Invalid username or password.", demoState)) ∧
    (login demoState (some "carol") (some "wrong") =
      login demoState (some "mallory") (some "cpw")) :=
  ⟨(login_behavior demoState).1 "carol" "cpw" demoUser
      (by decide) (by decide) (by decide) (by decide),
   (login_behavior demoState).2.1 "carol" "wrong" demoUser
      (by decide) (by decide) (by decide) (by decide),
   (login_behavior demoState).2.2.1 "mallory" "cpw" (by decide) (by decide) (by decide),
   (login_behavior demoState).2.2.2 "carol" "wrong" "mallory" "cpw" demoUser
      (by decide) (by decide) (by decide) (by decide) (by decide) (by decide) (by decide)⟩

/-- C7 (counterexample): the user directory is gated by `IsAdminUser`,
which checks `is_staff`, not `is_superuser`: the staff-but-not-superuser
caller `bob` gets a 200 and the list, not the 403 the claim requires for
every non-superuser. -/
theorem usersList_staff_not_superuser_allowed :
    demoStaff.is_superuser = false ∧
    (usersList demoState demoStaff).1.statusCode = 200 ∧
    (usersList demoState demoStaff).2 ≠ none := by
  refine ⟨by decide, by decide, by decide⟩

/-- C7 (amended): the user directory is restricted to identities with
`is_staff` (DRF `IsAdminUser`): a caller without `is_staff` — in
particular every plain User-role caller — gets the 403 forbidden
response and no list; a caller with `is_staff` gets a 200 whose payload
is the user table ordered by join date descending. -/
theorem usersList_staff_gate (s : ServerState) (caller : Identity) :
    (caller.is_staff = false →
      usersList s caller =
        (errResponse 403 "You do not have permission to perform this action.", none)) ∧
    (caller.is_staff = true →
      (usersList s caller).1.statusCode = 200 ∧
      ∃ l, (usersList s caller).2 = some l ∧ List.Perm l s.users ∧
        List.Sorted byDateJoinedDesc l) := by
  constructor
  · intro h
    unfold usersList
    rw [h]
    rfl
  · intro h
    unfold usersList
    rw [h]
    exact ⟨rfl, _, rfl, List.perm_insertionSort byDateJoinedDesc s.users,
      List.sorted_insertionSort byDateJoinedDesc s.users⟩

/-- Witness for the amended C7: in the demo store, plain user `carol` is
refused with 403 and staff `bob` receives a sorted permutation of the
user table. -/
theorem usersList_staff_gate_witness :
    (usersList demoState demoUser =
      (errResponse 403 "You do not have permission to perform this action.", none)) ∧
    ((usersList demoState demoStaff).1.statusCode = 200 ∧
      ∃ l, (usersList demoState demoStaff).2 = some l ∧ List.Perm l demoState.users ∧
        List.Sorted byDateJoinedDesc l) :=
  ⟨(usersList_staff_gate demoState demoUser).1 (by decide),
   (usersList_staff_gate demoState demoStaff).2 (by decide)⟩

/-- C9: a profile edit is a partial update: the token table is untouched
and, row by row, the caller's row changes only the supplied fields —
each omitted field keeps its previous value — while username, password
hash, both role flags and the join date never change, and every other
user's row is left exactly as it was. -/
theorem profilePut_frame (s : ServerState) (c : String) (req : ProfileRequest) :
    ((profilePut s c req).2).tokens = s.tokens ∧
    List.Forall₂ (fun v v' =>
        v'.username = v.username ∧ v'.passwordHash = v.passwordHash ∧
        v'.is_staff = v.is_staff ∧ v'.is_superuser = v.is_superuser ∧
        v'.date_joined = v.date_joined ∧
        (v.username = c →
          v'.email = req.email.getD v.email ∧
          v'.first_name = req.first_name.getD v.first_name ∧
          v'.last_name = req.last_name.getD v.last_name ∧
          (req.email = none → v'.email = v.email) ∧
          (req.first_name = none → v'.first_name = v.first_name) ∧
          (req.last_name = none → v'.last_name = v.last_name)) ∧
        (v.username ≠ c → v' = v))
      s.users ((profilePut s c req).2).users := by
  refine ⟨rfl, ?_⟩
  simp only [profilePut, updateUser]
  rw [List.forall₂_map_right_iff, List.forall₂_same]
  intro x _
  by_cases h : x.username = c
  · refine ⟨by simp [h], by simp [h], by simp [h], by simp [h], by simp [h], ?_, ?_⟩
    · intro _
      refine ⟨by simp [h], by simp [h], by simp [h], ?_, ?_, ?_⟩
      · intro he; simp [h, he]
      · intro he; simp [h, he]
      · intro he; simp [h, he]
    · intro hne; exact absurd h hne
  · refine ⟨by simp [h], by simp [h], by simp [h], by simp [h], by simp [h], ?_, ?_⟩
    · intro he; exact absurd he h
    · intro _; simp [h]

/-- Witness for C9: the frame property instantiated on the demo store for
`carol` editing only her email. -/
theorem profilePut_frame_witness :
    ((profilePut demoState "carol" ⟨some "carol2@example.com", none, none⟩).2).tokens =
      demoState.tokens ∧
    List.Forall₂ (fun v v' =>
        v'.username = v.username ∧ v'.passwordHash = v.passwordHash ∧
        v'.is_staff = v.is_staff ∧ v'.is_superuser = v.is_superuser ∧
        v'.date_joined = v.date_joined ∧
        (v.username = "carol" →
          v'.email = (some "carol2@example.com").getD v.email ∧
          v'.first_name = (none : Option String).getD v.first_name ∧
          v'.last_name = (none : Option String).getD v.last_name ∧
          ((some "carol2@example.com" : Option String) = none → v'.email = v.email) ∧
          ((none : Option String) = none → v'.first_name = v.first_name) ∧
          ((none : Option String) = none → v'.last_name = v.last_name)) ∧
        (v.username ≠ "carol" → v' = v))
      demoState.users
      ((profilePut demoState "carol" ⟨some "carol2@example.com", none, none⟩).2).users :=
  profilePut_frame demoState "carol" ⟨some "carol2@example.com", none, none⟩

/-- C10: a successful password change answers 200, re-hashes and stores
the new password, and deletes no token: the token table — and hence the
resolution of every bearer key — is exactly what it was before, so the
caller's existing token stays valid (keep-alive, not revoke). -/
theorem changePassword_keeps_tokens (s : ServerState) (c : String)
    (old_password new_password : Option String) (u : Identity)
    (hu : findUser s c = some u)
    (ho : isBlank old_password = false)
    (hn : isBlank new_password = false)
    (hck : u.passwordHash = hashPassword (old_password.getD "")) :
    (changePassword s c old_password new_password).1.statusCode = 200 ∧
    ((changePassword s c old_password new_password).2).tokens = s.tokens ∧
    (∀ k, tokenAuth ((changePassword s c old_password new_password).2) k = tokenAuth s k) ∧
    ∃ u', findUser ((changePassword s c old_password new_password).2) c = some u' ∧
      u'.passwordHash = hashPassword (new_password.getD "") := by
  have hred : changePassword s c old_password new_password =
      (⟨200, none, some "Password changed successfully.", none, none, none⟩,
       updateUser s c
         (fun v => { v with passwordHash := hashPassword (new_password.getD "") })) := by
    unfold changePassword
    simp [ho, hn, hu, hck]
  rw [hred]
  refine ⟨rfl, rfl, fun _ => rfl, ?_⟩
  have huc : u.username = c := by
    have := List.find?_some hu
    exact of_decide_eq_true this
  refine ⟨{ u with passwordHash := hashPassword (new_password.getD "") }, ?_, rfl⟩
  unfold findUser updateUser
  rw [List.find?_map]
  have hcomp : ((fun (v : Identity) => decide (v.username = c)) ∘
      (fun v => if v.username = c
        then { v with passwordHash := hashPassword (new_password.getD "") } else v)) =
      (fun (v : Identity) => decide (v.username = c)) := by
    funext v
    by_cases h : v.username = c <;> simp [h]
  rw [hcomp]
  unfold findUser at hu
  rw [hu]
  simp [huc]

/-- Witness for C10: `carol` changes her password in the demo store; the
token table is unchanged and her stored hash is the new one. -/
theorem changePassword_keeps_tokens_witness :
    (changePassword demoState "carol" (some "cpw") (some "newpw")).1.statusCode = 200 ∧
    ((changePassword demoState "carol" (some "cpw") (some "newpw")).2).tokens =
      demoState.tokens ∧
    (∀ k, tokenAuth ((changePassword demoState "carol" (some "cpw") (some "newpw")).2) k =
      tokenAuth demoState k) ∧
    ∃ u', findUser ((changePassword demoState "carol" (some "cpw") (some "newpw")).2) "carol" =
        some u' ∧
      u'.passwordHash = hashPassword "newpw" :=
  changePassword_keeps_tokens demoState "carol" (some "cpw") (some "newpw") demoUser
    (by decide) (by decide) (by decide) (by decide)

/-- C3: when the amount parses as an integer `n`, `adjustStock` returns
the product with stock set to `max 0 (stock + n)` — never negative, equal
to `stock + n` whenever that is non-negative (negative results are
clamped to zero, not rejected), all other fields untouched; a non-integer
amount fails with the validation error. -/
theorem adjustStock_clamps (p : Product) (a : FieldVal) :
    (∀ n : Int, parseIntField a = some n →
      adjustStock p a = .ok { p with stock := max 0 (p.stock + n) } ∧
      ∃ q : Product, adjustStock p a = .ok q ∧ 0 ≤ q.stock ∧
        (0 ≤ p.stock + n → q.stock = p.stock + n) ∧
        q.id = p.id ∧ q.name = p.name ∧ q.sku = p.sku ∧
        q.reorder_level = p.reorder_level ∧ q.supplier = p.supplier) ∧
    (parseIntField a = none → adjustStock p a = .error "Invalid amount.") := by
  constructor
  · intro n hn
    unfold adjustStock
    rw [hn]
    exact ⟨rfl, _, rfl, le_max_left 0 _, fun h => max_eq_right h, rfl, rfl, rfl, rfl, rfl⟩
  · intro hn
    unfold adjustStock
    rw [hn]

/-- Witness for C3 on the spec's own vectors: stock 3 with amount −10
clamps to 0, stock 3 with amount 5 gives 8, and a non-numeric amount is
rejected. -/
theorem adjustStock_clamps_witness :
    parseIntField (.vint (-10)) = some (-10) ∧
    adjustStock demoProduct (.vint (-10)) =
      .ok { demoProduct with stock := max 0 (demoProduct.stock + (-10)) } ∧
    max (0 : Int) (demoProduct.stock + (-10)) = 0 ∧
    adjustStock demoProduct (.vint 5) =
      .ok { demoProduct with stock := max 0 (demoProduct.stock + 5) } ∧
    max (0 : Int) (demoProduct.stock + 5) = 8 ∧
    adjustStock demoProduct (.vstr "ten") = .error "Invalid amount." :=
  ⟨by decide,
   ((adjustStock_clamps demoProduct (.vint (-10))).1 (-10) (by decide)).1,
   by decide,
   ((adjustStock_clamps demoProduct (.vint 5)).1 5 (by decide)).1,
   by decide,
   (adjustStock_clamps demoProduct (.vstr "ten")).2 (by decide)⟩

/-- C4 (counterexample): a quantity of 0 is NOT rejected: the model
field is a `PositiveIntegerField`, whose validation bound is `≥ 0`, so
an order for an existing product with quantity 0 is accepted. -/
theorem createOrder_accepts_zero_quantity :
    ∃ o : Order, ∃ s' : ServerState,
      createOrder demoState ⟨some "ORD-1", some 1, some (.vint 0), none⟩ = .ok (o, s') ∧
      o.quantity = 0 := by
  refine ⟨⟨"ORD-1", 1, 0, "pending", 3⟩,
    { demoState with orders := [⟨"ORD-1", 1, 0, "pending", 3⟩], now := 4 }, rfl, rfl⟩

/-- C4 (amended): for a fresh order number and an existing product, a
quantity of −1 is rejected (bound is ≥ 0), a non-integer quantity is
rejected, a missing quantity is rejected; a quantity of 0 is accepted
(the `PositiveIntegerField` bound is ≥ 0, not > 0); a quantity of 1 is
accepted and, with no status supplied, the persisted order has status
`"pending"`. -/
theorem createOrder_quantity_rules (s : ServerState) (num : String) (pid : Nat)
    (hnum : orderNumberExists s num = false)
    (hpid : productExists s pid = true) :
    createOrder s ⟨some num, some pid, some (.vint (-1)), none⟩ =
      .error "quantity: Ensure this value is greater than or equal to 0." ∧
    (∀ str : String, parseIntString str = none →
      createOrder s ⟨some num, some pid, some (.vstr str), none⟩ =
        .error "quantity: A valid integer is required.") ∧
    createOrder s ⟨some num, some pid, none, none⟩ =
      .error "quantity: This field is required." ∧
    (∃ o : Order, ∃ s' : ServerState,
      createOrder s ⟨some num, some pid, some (.vint 1), none⟩ = .ok (o, s') ∧
      o.quantity = 1 ∧ o.status = "pending" ∧ o.order_number = num ∧ o.product_id = pid ∧
      s'.orders = s.orders ++ [o]) ∧
    (∃ o : Order, ∃ s' : ServerState,
      createOrder s ⟨some num, some pid, some (.vint 0), none⟩ = .ok (o, s') ∧
      o.quantity = 0) := by
  refine ⟨?_, ?_, ?_, ?_, ?_⟩
  · unfold createOrder
    simp [hnum, hpid, parseIntField]
  · intro str hstr
    unfold createOrder
    simp [hnum, hpid, parseIntField, hstr]
  · unfold createOrder
    simp [hnum, hpid]
  · have h : createOrder s ⟨some num, some pid, some (.vint 1), none⟩ =
        .ok (⟨num, pid, 1, "pending", s.now⟩,
          { s with orders := s.orders ++ [⟨num, pid, 1, "pending", s.now⟩],
                   now := s.now + 1 }) := by
      unfold createOrder
      simp [hnum, hpid, parseIntField, orderStatusChoices]
    exact ⟨_, _, h, rfl, rfl, rfl, rfl, rfl⟩
  · have h : createOrder s ⟨some num, some pid, some (.vint 0), none⟩ =
        .ok (⟨num, pid, 0, "pending", s.now⟩,
          { s with orders := s.orders ++ [⟨num, pid, 0, "pending", s.now⟩],
                   now := s.now + 1 }) := by
      unfold createOrder
      simp [hnum, hpid, parseIntField, orderStatusChoices]
    exact ⟨_, _, h, rfl⟩

/-- Witness for the amended C4 in the demo store: −1, `"ten"` and a
missing quantity are rejected; 1 and 0 are accepted, the former with
default status `"pending"`. -/
theorem createOrder_quantity_rules_witness :
    createOrder demoState ⟨some "ORD-2", some 1, some (.vint (-1)), none⟩ =
      .error "quantity: Ensure this value is greater than or equal to 0." ∧
    createOrder demoState ⟨some "ORD-2", some 1, some (.vstr "ten"), none⟩ =
      .error "quantity: A valid integer is required." ∧
    createOrder demoState ⟨some "ORD-2", some 1, none, none⟩ =
      .error "quantity: This field is required." ∧
    (∃ o : Order, ∃ s' : ServerState,
      createOrder demoState ⟨some "ORD-2", some 1, some (.vint 1), none⟩ = .ok (o, s') ∧
      o.quantity = 1 ∧ o.status = "pending" ∧ o.order_number = "ORD-2" ∧ o.product_id = 1 ∧
      s'.orders = demoState.orders ++ [o]) :=
  ⟨(createOrder_quantity_rules demoState "ORD-2" 1 (by decide) (by decide)).1,
   (createOrder_quantity_rules demoState "ORD-2" 1 (by decide) (by decide)).2.1 "ten"
     (by decide),
   (createOrder_quantity_rules demoState "ORD-2" 1 (by decide) (by decide)).2.2.1,
   (createOrder_quantity_rules demoState "ORD-2" 1 (by decide) (by decide)).2.2.2.1⟩

end Inventory
